import Mathlib

/-!
Shallow embedding of the Pomodoro app's session-cycling and timer core:
the `Timer` class (Countdown Engine, src/components/Settings.js, appended
Timer component) and the `SessionManager` class (Session Cycle Controller,
src/components/SessionManager.js).

JavaScript numbers are modelled as `Int` (all arithmetic here is integral);
the JS remainder operator `%` is truncated remainder, `Int.tmod`, and
`Math.floor(a / b)` on integers is flooring division, `Int.fdiv`.
JS truthiness defaults (`x || d`) are modelled explicitly: a missing field
is `none`, and `0` (resp. the empty string) is falsy.
-/

/-- JS `v || d` for an optional numeric field: a missing field or the
(falsy) value 0 falls back to `d`; every other number is kept. -/
def jsOr (v : Option Int) (d : Int) : Int :=
  match v with
  | none => d
  | some x => if x = 0 then d else x

/-- JS `v || d` for an optional string field: a missing field or the
(falsy) empty string falls back to `d`; every other string is kept. -/
def jsOrStr (v : Option String) (d : String) : String :=
  match v with
  | none => d
  | some x => if x = "" then d else x

/-- State of the `Timer` component: `currentTime` (seconds), `isRunning`,
`isPaused`.  The `setInterval` handle is represented by `isRunning`: in
every state the code can reach, an interval is scheduled exactly while
`isRunning` is true (`start` guards against a second interval, and
`pause`/`stop` clear it). -/
structure TimerState where
  currentTime : Int
  isRunning : Bool
  isPaused : Bool
deriving DecidableEq, Repr

/-- Observable callbacks of the Timer: `onTick` with the new value, and
`onComplete`. -/
inductive TimerEvent where
  | tick (t : Int)
  | complete
deriving DecidableEq, Repr

/-- `new Timer()`: time 0, not running, not paused. -/
def TimerState.init : TimerState :=
  { currentTime := 0, isRunning := false, isPaused := false }

/-- `Timer.setDuration(seconds)`: assigns `currentTime` unless running. -/
def TimerState.setDuration (s : TimerState) (seconds : Int) : TimerState :=
  if s.isRunning then s else { s with currentTime := seconds }

/-- `Timer.start()` (state part): early-returns when already running,
otherwise becomes running and schedules the interval. -/
def TimerState.start (s : TimerState) : TimerState :=
  if s.isRunning then s else { s with isRunning := true, isPaused := false }

/-- `Timer.pause()`: early-returns when not running, otherwise clears the
interval and becomes paused. -/
def TimerState.pause (s : TimerState) : TimerState :=
  if s.isRunning then { s with isRunning := false, isPaused := true } else s

/-- `Timer.stop()`: clears the interval, not running, not paused,
`currentTime` untouched. -/
def TimerState.stop (s : TimerState) : TimerState :=
  { s with isRunning := false, isPaused := false }

/-- `Timer.reset(seconds)`: `stop()` then assign `currentTime`,
`isPaused := false`. -/
def TimerState.reset (s : TimerState) (seconds : Int) : TimerState :=
  { s.stop with currentTime := seconds, isPaused := false }

/-- `Timer.complete()`: `stop()` and fire the `onComplete` callback. -/
def TimerState.fireComplete (s : TimerState) : TimerState × List TimerEvent :=
  (s.stop, [TimerEvent.complete])

/-- `Timer.toggle()`: `pause()` if running else `start()`. -/
def TimerState.toggle (s : TimerState) : TimerState :=
  if s.isRunning then s.pause else s.start

/-- Body of the `setInterval` callback in `Timer.start()`: decrement
`currentTime`, fire `onTick` with the new value, and when the new value is
`<= 0` run `complete()` (which fires `onComplete`).  The interval fires
only while `isRunning` is true. -/
def TimerState.tickStep (s : TimerState) : TimerState × List TimerEvent :=
  let s1 := { s with currentTime := s.currentTime - 1 }
  let tickEv := TimerEvent.tick s1.currentTime
  if s1.currentTime ≤ 0 then
    let c := s1.fireComplete
    (c.1, tickEv :: c.2)
  else
    (s1, [tickEv])

/-- States of the Countdown Engine reachable from construction via its
public operations with nonnegative duration arguments (the spec's stated
precondition), interval ticks included. -/
inductive TimerReachable : TimerState → Prop where
  | init : TimerReachable TimerState.init
  | setDuration {s} (n : Int) : 0 ≤ n → TimerReachable s →
      TimerReachable (s.setDuration n)
  | start {s} : TimerReachable s → TimerReachable s.start
  | pause {s} : TimerReachable s → TimerReachable s.pause
  | stop {s} : TimerReachable s → TimerReachable s.stop
  | reset {s} (n : Int) : 0 ≤ n → TimerReachable s →
      TimerReachable (s.reset n)
  | toggle {s} : TimerReachable s → TimerReachable s.toggle
  | tick {s} : s.isRunning = true → TimerReachable s →
      TimerReachable (s.tickStep).1

/-- The `settings` object consumed by `SessionManager`; each numeric field
may be absent (`none`).  Boolean flags absent from the object behave as
`false` in the `&&` positions where they are read, so they are plain
`Bool`. -/
structure SMSettings where
  workDuration : Option Int
  shortBreakDuration : Option Int
  longBreakDuration : Option Int
  sessionsUntilLongBreak : Option Int
  autoStartBreaks : Bool
  autoStartPomodoros : Bool
deriving DecidableEq, Repr

/-- Mutable state of a `SessionManager` instance.  `currentSession` is the
session-type string; the recognized values are "work", "shortBreak" and
"longBreak" (the `sessionTypes` constants). -/
structure SMState where
  settings : SMSettings
  currentSession : String
  sessionCount : Int
  completedPomodoros : Int
deriving DecidableEq, Repr

/-- A value produced by JS bracket lookup on the `durations` object
literal: either an own numeric entry, or a member inherited from
`Object.prototype` through the prototype chain (a function — or, for the
accessor `__proto__`, the prototype object itself); every inherited
member is truthy and none is a number. -/
inductive JsValue where
  | num (n : Int)
  | inherited (name : String)
deriving DecidableEq, Repr

/-- The own property names of `Object.prototype`, visible to bracket
lookup on a plain object literal when the key is not an own key. -/
def objectPrototypeKeys : List String :=
  ["constructor", "hasOwnProperty", "isPrototypeOf",
   "propertyIsEnumerable", "toLocaleString", "toString", "valueOf",
   "__defineGetter__", "__defineSetter__", "__lookupGetter__",
   "__lookupSetter__", "__proto__"]

/-- JS bracket lookup `durations[key]` on the three-entry object literal
built by `getSessionDuration`: own keys first, then the prototype chain,
otherwise undefined (`none`). -/
def durationsLookup (workD shortD longD : Int) (key : String) :
    Option JsValue :=
  if key = "work" then some (JsValue.num workD)
  else if key = "shortBreak" then some (JsValue.num shortD)
  else if key = "longBreak" then some (JsValue.num longD)
  else if key ∈ objectPrototypeKeys then some (JsValue.inherited key)
  else none

/-- The record returned by `completeSession()`. -/
structure SessionInfo where
  previousSession : String
  currentSession : String
  completedPomodoros : Int
  sessionCount : Int
  duration : JsValue
  shouldAutoStart : Bool
deriving DecidableEq, Repr

/-- The record returned by `getStatistics()`. -/
structure Statistics where
  completedPomodoros : Int
  totalSessions : Int
  sessionsUntilLongBreak : Int
  currentCycle : Int
  currentSessionInCycle : Int
deriving DecidableEq, Repr

/-- The object produced by `exportState()` / consumed by `importState()`;
any field may be absent in a persisted snapshot. -/
structure Snapshot where
  currentSession : Option String
  sessionCount : Option Int
  completedPomodoros : Option Int
deriving DecidableEq, Repr

/-- `new SessionManager(settings)`: session "work", counters 0. -/
def SMState.mkNew (settings : SMSettings) : SMState :=
  { settings := settings, currentSession := "work",
    sessionCount := 0, completedPomodoros := 0 }

/-- `SessionManager.getSessionDuration(sessionType)`: builds the
`durations` object literal with `(field || default) * 60` entries and
returns `durations[sessionType] || durations[WORK]`.  Bracket lookup
traverses the prototype chain, so a key naming an `Object.prototype`
member yields that (truthy, non-numeric) inherited member and the `||`
keeps it; a key that is neither an own key nor inherited looks up as
undefined, which is falsy, and a numeric 0 is falsy too. -/
def SMState.getSessionDuration (s : SMState) (sessionType : String) :
    JsValue :=
  let workD := (jsOr s.settings.workDuration 25) * 60
  let shortD := (jsOr s.settings.shortBreakDuration 5) * 60
  let longD := (jsOr s.settings.longBreakDuration 15) * 60
  match durationsLookup workD shortD longD sessionType with
  | none => JsValue.num workD
  | some (JsValue.num n) => if n = 0 then JsValue.num workD else JsValue.num n
  | some (JsValue.inherited name) => JsValue.inherited name

/-- `SessionManager.getCurrentSessionDuration()`. -/
def SMState.getCurrentSessionDuration (s : SMState) : JsValue :=
  s.getSessionDuration s.currentSession

/-- `SessionManager.shouldAutoStart()`: reads `currentSession` (already
updated to the next session when called from `completeSession`). -/
def SMState.shouldAutoStart (s : SMState) : Bool :=
  (decide (s.currentSession ≠ "work") && s.settings.autoStartBreaks) ||
  (decide (s.currentSession = "work") && s.settings.autoStartPomodoros)

/-- `SessionManager.completeSession()`: the advance operation.  Returns
the mutated state together with the `sessionInfo` record it hands to its
callbacks and returns. -/
def SMState.completeSession (s : SMState) : SMState × SessionInfo :=
  let previousSession := s.currentSession
  let s1 :=
    if s.currentSession = "work" then
      let s2 := { s with completedPomodoros := s.completedPomodoros + 1,
                         sessionCount := s.sessionCount + 1 }
      let sessionsUntilLongBreak := jsOr s.settings.sessionsUntilLongBreak 4
      let nextSession :=
        if Int.tmod s2.sessionCount sessionsUntilLongBreak = 0 then "longBreak"
        else "shortBreak"
      { s2 with currentSession := nextSession }
    else
      { s with currentSession := "work" }
  (s1,
   { previousSession := previousSession
     currentSession := s1.currentSession
     completedPomodoros := s1.completedPomodoros
     sessionCount := s1.sessionCount
     duration := s1.getCurrentSessionDuration
     shouldAutoStart := s1.shouldAutoStart })

/-- `SessionManager.getNextSessionType()`: pure preview of the next
session type. -/
def SMState.getNextSessionType (s : SMState) : String :=
  if s.currentSession = "work" then
    let sessionsUntilLongBreak := jsOr s.settings.sessionsUntilLongBreak 4
    let nextSessionCount := s.sessionCount + 1
    if Int.tmod nextSessionCount sessionsUntilLongBreak = 0 then "longBreak"
    else "shortBreak"
  else "work"

/-- A call of `getNextSessionType()` as a state transformer: the state
after the call paired with the returned string (the method only reads
fields, so the state component is the receiver unchanged). -/
def SMState.peekNextType (s : SMState) : SMState × String :=
  (s, s.getNextSessionType)

/-- `SessionManager.getStatistics()`. -/
def SMState.getStatistics (s : SMState) : Statistics :=
  let sessionsUntilLongBreak := jsOr s.settings.sessionsUntilLongBreak 4
  let sessionsUntilNextLongBreak :=
    sessionsUntilLongBreak - Int.tmod s.sessionCount sessionsUntilLongBreak
  { completedPomodoros := s.completedPomodoros
    totalSessions := s.sessionCount
    sessionsUntilLongBreak :=
      if sessionsUntilNextLongBreak = sessionsUntilLongBreak then 0
      else sessionsUntilNextLongBreak
    currentCycle := Int.fdiv s.sessionCount sessionsUntilLongBreak + 1
    currentSessionInCycle :=
      Int.tmod s.sessionCount sessionsUntilLongBreak + 1 }

/-- `SessionManager.resetCounters()`. -/
def SMState.resetCounters (s : SMState) : SMState :=
  { s with sessionCount := 0, completedPomodoros := 0 }

/-- `SessionManager.resetToDefaults()`. -/
def SMState.resetToDefaults (s : SMState) : SMState :=
  { s with currentSession := "work", sessionCount := 0, completedPomodoros := 0 }

/-- `SessionManager.initialize(settings)`: store settings then
`resetToDefaults()`. -/
def SMState.initManager (s : SMState) (settings : SMSettings) : SMState :=
  SMState.resetToDefaults { s with settings := settings }

/-- `SessionManager.updateSettings(newSettings)`: the spread-merge
`{...old, ...new}`; `merged` is the resulting settings object. -/
def SMState.updateSettings (s : SMState) (merged : SMSettings) : SMState :=
  { s with settings := merged }

/-- `SessionManager.setCurrentSession(sessionType)`: accepts exactly the
values of `sessionTypes`, returns whether it was set. -/
def SMState.setCurrentSession (s : SMState) (sessionType : String) :
    SMState × Bool :=
  if sessionType = "work" ∨ sessionType = "shortBreak" ∨
      sessionType = "longBreak" then
    ({ s with currentSession := sessionType }, true)
  else
    (s, false)

/-- `SessionManager.exportState()`. -/
def SMState.exportState (s : SMState) : Snapshot :=
  { currentSession := some s.currentSession
    sessionCount := some s.sessionCount
    completedPomodoros := some s.completedPomodoros }

/-- `SessionManager.importState(state)`: a null/undefined argument is
ignored; otherwise every field is restored through a JS `|| default`. -/
def SMState.importState (s : SMState) (st : Option Snapshot) : SMState :=
  match st with
  | none => s
  | some st =>
      { s with currentSession := jsOrStr st.currentSession "work"
               sessionCount := jsOr st.sessionCount 0
               completedPomodoros := jsOr st.completedPomodoros 0 }

/-- Session states reachable from construction via the mutating
operations of `SessionManager` (with arbitrary arguments, imports of
arbitrary snapshots included). -/
inductive SMReachable : SMState → Prop where
  | mkNew (settings : SMSettings) : SMReachable (SMState.mkNew settings)
  | complete {s} : SMReachable s → SMReachable (s.completeSession).1
  | setCur {s} (t : String) : SMReachable s →
      SMReachable (s.setCurrentSession t).1
  | resetCounters {s} : SMReachable s → SMReachable s.resetCounters
  | resetToDefaults {s} : SMReachable s → SMReachable s.resetToDefaults
  | initManager {s} (settings : SMSettings) : SMReachable s →
      SMReachable (s.initManager settings)
  | importSt {s} (st : Option Snapshot) : SMReachable s →
      SMReachable (s.importState st)
  | updateSettings {s} (merged : SMSettings) : SMReachable s →
      SMReachable (s.updateSettings merged)

/-- A sample validated configuration (the repository's defaults). -/
def sampleSettings : SMSettings :=
  { workDuration := some 25, shortBreakDuration := some 5,
    longBreakDuration := some 15, sessionsUntilLongBreak := some 4,
    autoStartBreaks := false, autoStartPomodoros := false }

/-- A freshly constructed manager over `sampleSettings`. -/
def sampleState : SMState :=
  SMState.mkNew sampleSettings

theorem jsOr_some_zero (x : Int) : jsOr (some x) 0 = x := by
  by_cases h : x = 0 <;> simp [jsOr, h]

theorem jsOrStr_some_ne {x : String} (h : x ≠ "") (d : String) :
    jsOrStr (some x) d = x := by
  simp [jsOrStr, h]

theorem jsOr_pos {v : Option Int} {d : Int} (hv : ∀ x, v = some x → 0 < x)
    (hd : 0 < d) : 0 < jsOr v d := by
  cases v with
  | none => simpa [jsOr] using hd
  | some x =>
    by_cases hx : x = 0
    · simpa [jsOr, hx] using hd
    · simpa [jsOr, hx] using hv x rfl

theorem completeSession_ne_empty (s : SMState) :
    ((s.completeSession).1).currentSession ≠ "" := by
  by_cases hw : s.currentSession = "work"
  · simp [SMState.completeSession, hw]
    split <;> simp
  · simp [SMState.completeSession, hw]

theorem setCurrentSession_ne_empty (s : SMState) (t : String)
    (h : s.currentSession ≠ "") :
    ((s.setCurrentSession t).1).currentSession ≠ "" := by
  simp only [SMState.setCurrentSession]
  split
  · next hv => rcases hv with h1 | h1 | h1 <;> simp [h1]
  · exact h

theorem importState_ne_empty (s : SMState) (st : Option Snapshot)
    (h : s.currentSession ≠ "") :
    ((s.importState st)).currentSession ≠ "" := by
  cases st with
  | none => simpa [SMState.importState] using h
  | some st =>
    cases hcs : st.currentSession with
    | none => simp [SMState.importState, jsOrStr, hcs]
    | some x =>
      by_cases hx : x = "" <;> simp [SMState.importState, jsOrStr, hcs, hx]

/-- In every reachable session state the session-type string is nonempty,
so it is truthy for the JS default applied on import. -/
theorem SMReachable.currentSession_ne_empty {s : SMState}
    (h : SMReachable s) : s.currentSession ≠ "" := by
  induction h with
  | mkNew settings => simp [SMState.mkNew]
  | complete h ih => exact completeSession_ne_empty _
  | setCur t h ih => exact setCurrentSession_ne_empty _ t ih
  | resetCounters h ih => simpa [SMState.resetCounters] using ih
  | resetToDefaults h ih => simp [SMState.resetToDefaults]
  | initManager settings h ih => simp [SMState.initManager, SMState.resetToDefaults]
  | importSt st h ih => exact importState_ne_empty _ st ih
  | updateSettings merged h ih => simpa [SMState.updateSettings] using ih

/-- C1: with a configured cycle length of at least 2, the advance
operation (`completeSession`) invoked while the current session is "work"
increments `sessionCount` and `completedPomodoros` each by exactly 1 and
installs "longBreak" exactly when the incremented session count is
divisible by the cycle length, "shortBreak" otherwise; invoked while the
current session is "shortBreak" or "longBreak" it installs "work" and
leaves both counters unchanged. -/
theorem C1_advance_transition (s : SMState) (k : Int)
    (hk : s.settings.sessionsUntilLongBreak = some k) (hk2 : 2 ≤ k)
    (hsc : 0 ≤ s.sessionCount) :
    (s.currentSession = "work" →
      (s.completeSession).1.sessionCount = s.sessionCount + 1 ∧
      (s.completeSession).1.completedPomodoros = s.completedPomodoros + 1 ∧
      (s.completeSession).1.currentSession =
        (if (s.sessionCount + 1) % k = 0 then "longBreak" else "shortBreak")) ∧
    ((s.currentSession = "shortBreak" ∨ s.currentSession = "longBreak") →
      (s.completeSession).1.currentSession = "work" ∧
      (s.completeSession).1.sessionCount = s.sessionCount ∧
      (s.completeSession).1.completedPomodoros = s.completedPomodoros) := by
  have hknz : k ≠ 0 := by omega
  have hk0 : jsOr s.settings.sessionsUntilLongBreak 4 = k := by
    rw [hk]; simp [jsOr, hknz]
  have htm : Int.tmod (s.sessionCount + 1) k = (s.sessionCount + 1) % k :=
    Int.tmod_eq_emod (by omega) (by omega)
  constructor
  · intro hw
    simp [SMState.completeSession, hw, hk0, htm]
  · intro hb
    have hw : ¬ s.currentSession = "work" := by
      rcases hb with h | h <;> simp [h]
    simp [SMState.completeSession, hw]

theorem C1_advance_transition_witness :
    (sampleState.completeSession).1.sessionCount = 1 ∧
    (sampleState.completeSession).1.completedPomodoros = 1 ∧
    (sampleState.completeSession).1.currentSession = "shortBreak" := by
  have h := C1_advance_transition sampleState 4 rfl (by decide) (by decide)
  have h1 := h.1 rfl
  refine ⟨?_, ?_, ?_⟩
  · rw [h1.1]; decide
  · rw [h1.2.1]; decide
  · rw [h1.2.2]; decide

/-- C2 counterexample: reset(0) immediately followed by start() fires the
completion callback on the first interval tick, but with
remainingSeconds = -1, not 0 — and that negative state is reachable, so
remainingSeconds is not always nonnegative. -/
theorem C2_cex_negative_time :
    (((TimerState.init.reset 0).start.tickStep).1.currentTime = -1) ∧
    TimerEvent.complete ∈ ((TimerState.init.reset 0).start.tickStep).2 ∧
    TimerReachable (((TimerState.init.reset 0).start.tickStep).1) :=
  ⟨by decide, by decide,
   TimerReachable.tick (by decide)
     (TimerReachable.start
       (TimerReachable.reset 0 (by decide) TimerReachable.init))⟩

theorem tickStep_currentTime (s : TimerState) :
    (s.tickStep).1.currentTime = s.currentTime - 1 := by
  simp only [TimerState.tickStep, TimerState.fireComplete, TimerState.stop]
  split <;> rfl

theorem tickStep_complete_iff (s : TimerState) :
    TimerEvent.complete ∈ (s.tickStep).2 ↔ s.currentTime - 1 ≤ 0 := by
  simp only [TimerState.tickStep, TimerState.fireComplete, TimerState.stop]
  split
  · next h => simp [h]
  · next h => simp [h]

/-- C2 (amended): on a tick taken while running with remainingSeconds ≥ 1,
the new remainingSeconds stays ≥ 0 and the completion callback fires
exactly when it reaches 0; but reset(0) immediately followed by start()
fires completion on the first tick with remainingSeconds = -1 (the tick
decrements before testing for completion with ≤ 0). -/
theorem C2_tick_boundary_amended (s : TimerState) :
    (s.isRunning = true → 1 ≤ s.currentTime →
      0 ≤ (s.tickStep).1.currentTime ∧
      (TimerEvent.complete ∈ (s.tickStep).2 ↔
        (s.tickStep).1.currentTime = 0)) ∧
    ((((TimerState.init.reset 0).start.tickStep).1.currentTime = -1) ∧
      TimerEvent.complete ∈ ((TimerState.init.reset 0).start.tickStep).2) := by
  refine ⟨?_, by decide, by decide⟩
  intro _ h1
  rw [tickStep_currentTime, tickStep_complete_iff]
  omega

theorem C2_tick_boundary_witness :
    (0 ≤ ((⟨1, true, false⟩ : TimerState).tickStep).1.currentTime ∧
      (TimerEvent.complete ∈ ((⟨1, true, false⟩ : TimerState).tickStep).2 ↔
        ((⟨1, true, false⟩ : TimerState).tickStep).1.currentTime = 0)) :=
  (C2_tick_boundary_amended ⟨1, true, false⟩).1 rfl (by decide)

/-- C3 counterexample: importing a snapshot whose session-type field holds
the unrecognized (truthy) string "banana" keeps that value instead of
defaulting to "work". -/
theorem C3_cex_unrecognized_type_kept :
    (sampleState.importState
        (some { currentSession := some "banana", sessionCount := none,
                completedPomodoros := none })).currentSession = "banana" ∧
    "banana" ≠ "work" ∧ "banana" ≠ "shortBreak" ∧ "banana" ≠ "longBreak" := by
  decide

/-- C3 (amended): importState never fails and fields missing from the
snapshot default to "work", 0 and 0; the session-type field defaults to
"work" exactly when it is missing or (falsy) empty, while a non-empty
unrecognized string is restored verbatim rather than replaced by "work". -/
theorem C3_import_defaults_amended (s : SMState) (snap : Snapshot) :
    (s.importState (some { currentSession := none, sessionCount := none,
                           completedPomodoros := none }) =
      { s with currentSession := "work", sessionCount := 0,
               completedPomodoros := 0 }) ∧
    (snap.currentSession = none ∨ snap.currentSession = some "" →
      (s.importState (some snap)).currentSession = "work") ∧
    (∀ t : String, t ≠ "" → snap.currentSession = some t →
      (s.importState (some snap)).currentSession = t) ∧
    (snap.sessionCount = none → (s.importState (some snap)).sessionCount = 0) ∧
    (snap.completedPomodoros = none →
      (s.importState (some snap)).completedPomodoros = 0) := by
  refine ⟨?_, ?_, ?_, ?_, ?_⟩
  · simp [SMState.importState, jsOr, jsOrStr]
  · rintro (h | h) <;> simp [SMState.importState, jsOrStr, h]
  · intro t ht h
    simp [SMState.importState, jsOrStr, h, ht]
  · intro h
    simp [SMState.importState, jsOr, h]
  · intro h
    simp [SMState.importState, jsOr, h]

theorem C3_import_defaults_witness :
    (sampleState.importState (some { currentSession := some "banana",
                                     sessionCount := none,
                                     completedPomodoros := none })).currentSession
      = "banana" ∧
    (sampleState.importState (some { currentSession := some "banana",
                                     sessionCount := none,
                                     completedPomodoros := none })).sessionCount
      = 0 := by
  have h := C3_import_defaults_amended sampleState
    { currentSession := some "banana", sessionCount := none,
      completedPomodoros := none }
  exact ⟨h.2.2.1 "banana" (by decide) rfl, h.2.2.2.1 rfl⟩

/-- C4: on every reachable session state, importState of exportState
restores `currentSession`, `sessionCount` and `completedPomodoros` to the
exported values — the whole state is reproduced exactly. -/
theorem C4_export_import_roundtrip (s : SMState) (h : SMReachable s) :
    s.importState (some s.exportState) = s := by
  have hne : s.currentSession ≠ "" := SMReachable.currentSession_ne_empty h
  simp [SMState.importState, SMState.exportState, jsOr_some_zero,
    jsOrStr_some_ne hne]

theorem C4_export_import_roundtrip_witness :
    SMReachable sampleState ∧
    sampleState.importState (some sampleState.exportState) = sampleState :=
  ⟨SMReachable.mkNew sampleSettings,
   C4_export_import_roundtrip sampleState (SMReachable.mkNew sampleSettings)⟩

/-- C5: start() is idempotent — calling it twice leaves the same state as
calling it once, and when the engine is already running a further start()
is a no-op (the early return also schedules no second interval, so the
tick cadence is unchanged). -/
theorem C5_start_idempotent (s : TimerState) :
    s.start.start = s.start ∧ (s.isRunning = true → s.start = s) := by
  constructor
  · by_cases h : s.isRunning <;> simp [TimerState.start, h]
  · intro h
    simp [TimerState.start, h]

theorem C5_start_idempotent_witness :
    (⟨5, true, false⟩ : TimerState).start.start =
      (⟨5, true, false⟩ : TimerState).start ∧
    (⟨5, true, false⟩ : TimerState).start = ⟨5, true, false⟩ :=
  ⟨(C5_start_idempotent ⟨5, true, false⟩).1,
   (C5_start_idempotent ⟨5, true, false⟩).2 rfl⟩

/-- C6: a call of getNextSessionType (the peek operation) leaves the state
untouched and returns exactly the session type that completeSession
invoked on the same state installs as the new current session. -/
theorem C6_peek_matches_advance (s : SMState) :
    (s.peekNextType).1 = s ∧
    (s.peekNextType).2 = ((s.completeSession).1).currentSession := by
  refine ⟨rfl, ?_⟩
  by_cases h : s.currentSession = "work" <;>
    simp [SMState.peekNextType, SMState.getNextSessionType,
      SMState.completeSession, h]

/-- C7: setDuration while running is a silent no-op leaving the whole
state (remainingSeconds included) unchanged; while not running it sets
remainingSeconds to the given value. -/
theorem C7_setDuration_running_noop (s : TimerState) (n : Int) :
    (s.isRunning = true → s.setDuration n = s) ∧
    (s.isRunning = false → s.setDuration n = { s with currentTime := n }) := by
  constructor <;> intro h <;> simp [TimerState.setDuration, h]

theorem C7_setDuration_witness :
    ((⟨7, true, false⟩ : TimerState).setDuration 99 = ⟨7, true, false⟩) ∧
    ((⟨7, false, true⟩ : TimerState).setDuration 99 = ⟨99, false, true⟩) :=
  ⟨(C7_setDuration_running_noop ⟨7, true, false⟩ 99).1 rfl,
   (C7_setDuration_running_noop ⟨7, false, true⟩ 99).2 rfl⟩

/-- C8: with a configured cycle length k ≥ 2 and sessionCount ≥ 0, the
statistics are sessionsUntilNextLongBreak = k - sessionCount % k
normalized to 0 when that difference equals k, currentCycle =
sessionCount / k + 1 (flooring division) and currentSessionInCycle =
sessionCount % k + 1. -/
theorem C8_statistics (s : SMState) (k : Int)
    (hk : s.settings.sessionsUntilLongBreak = some k) (hk2 : 2 ≤ k)
    (hsc : 0 ≤ s.sessionCount) :
    (s.getStatistics).sessionsUntilLongBreak =
      (if k - s.sessionCount % k = k then 0 else k - s.sessionCount % k) ∧
    (s.getStatistics).currentCycle = s.sessionCount / k + 1 ∧
    (s.getStatistics).currentSessionInCycle = s.sessionCount % k + 1 := by
  have hknz : k ≠ 0 := by omega
  have hk0 : jsOr s.settings.sessionsUntilLongBreak 4 = k := by
    rw [hk]; simp [jsOr, hknz]
  have htm : Int.tmod s.sessionCount k = s.sessionCount % k :=
    Int.tmod_eq_emod hsc (by omega)
  have hfd : Int.fdiv s.sessionCount k = s.sessionCount / k :=
    Int.fdiv_eq_ediv _ (by omega)
  simp [SMState.getStatistics, hk0, htm, hfd]

theorem C8_statistics_witness :
    (({ sampleState with sessionCount := 2, completedPomodoros := 2 }
        : SMState).getStatistics).sessionsUntilLongBreak = 2 ∧
    (({ sampleState with sessionCount := 2, completedPomodoros := 2 }
        : SMState).getStatistics).currentCycle = 1 ∧
    (({ sampleState with sessionCount := 2, completedPomodoros := 2 }
        : SMState).getStatistics).currentSessionInCycle = 3 := by
  have h := C8_statistics
    { sampleState with sessionCount := 2, completedPomodoros := 2 } 4
    rfl (by decide) (by decide)
  refine ⟨?_, ?_, ?_⟩
  · rw [h.1]; decide
  · rw [h.2.1]; decide
  · rw [h.2.2]; decide

/-- C9 counterexample: the argument "toString" lies outside the three
recognized session types, yet bracket lookup on the `durations` object
finds the inherited `Object.prototype` member, which is truthy, so
`getSessionDuration` returns that member — not the work session's
duration and not a (positive) number of seconds. -/
theorem C9_cex_prototype_member :
    sampleState.getSessionDuration "toString" = JsValue.inherited "toString" ∧
    sampleState.getSessionDuration "work" = JsValue.num 1500 ∧
    JsValue.inherited "toString" ≠ JsValue.num 1500 := by
  decide

/-- C9 (amended): getSessionDuration returns the work session's duration
for any argument outside the three recognized types that names no
`Object.prototype` member; an argument naming an inherited
`Object.prototype` member returns that truthy non-numeric member
verbatim; a duration field absent from the settings object falls back to
25, 5 or 15 minutes respectively; and whenever every configured duration
is positive the returned value is a positive number of seconds for every
argument outside the inherited member names. -/
theorem C9_getSessionDuration_total (s : SMState) (t : String) :
    (t ≠ "work" → t ≠ "shortBreak" → t ≠ "longBreak" →
      t ∉ objectPrototypeKeys →
      s.getSessionDuration t = s.getSessionDuration "work") ∧
    (t ≠ "work" → t ≠ "shortBreak" → t ≠ "longBreak" →
      t ∈ objectPrototypeKeys →
      s.getSessionDuration t = JsValue.inherited t) ∧
    (s.settings.workDuration = none →
      s.getSessionDuration "work" = JsValue.num (25 * 60)) ∧
    (s.settings.shortBreakDuration = none →
      s.getSessionDuration "shortBreak" = JsValue.num (5 * 60)) ∧
    (s.settings.longBreakDuration = none →
      s.getSessionDuration "longBreak" = JsValue.num (15 * 60)) ∧
    ((∀ x, s.settings.workDuration = some x → 0 < x) →
      (∀ x, s.settings.shortBreakDuration = some x → 0 < x) →
      (∀ x, s.settings.longBreakDuration = some x → 0 < x) →
      t ∉ objectPrototypeKeys →
      ∃ n : Int, 0 < n ∧ s.getSessionDuration t = JsValue.num n) := by
  refine ⟨?_, ?_, ?_, ?_, ?_, ?_⟩
  · intro h1 h2 h3 h4
    simp [SMState.getSessionDuration, durationsLookup, h1, h2, h3, h4]
  · intro h1 h2 h3 h4
    simp [SMState.getSessionDuration, durationsLookup, h1, h2, h3, h4]
  · intro h
    simp [SMState.getSessionDuration, durationsLookup, jsOr, h]
  · intro h
    simp [SMState.getSessionDuration, durationsLookup, jsOr, h]
  · intro h
    simp [SMState.getSessionDuration, durationsLookup, jsOr, h]
  · intro hw hs hl hnp
    have pw : 0 < (jsOr s.settings.workDuration 25) * 60 := by
      have := jsOr_pos hw (by norm_num : (0:Int) < 25)
      omega
    have ps : 0 < (jsOr s.settings.shortBreakDuration 5) * 60 := by
      have := jsOr_pos hs (by norm_num : (0:Int) < 5)
      omega
    have pl : 0 < (jsOr s.settings.longBreakDuration 15) * 60 := by
      have := jsOr_pos hl (by norm_num : (0:Int) < 15)
      omega
    have pw0 : (jsOr s.settings.workDuration 25) * 60 ≠ 0 := by omega
    have ps0 : (jsOr s.settings.shortBreakDuration 5) * 60 ≠ 0 := by omega
    have pl0 : (jsOr s.settings.longBreakDuration 15) * 60 ≠ 0 := by omega
    by_cases h1 : t = "work"
    · refine ⟨(jsOr s.settings.workDuration 25) * 60, pw, ?_⟩
      simp [SMState.getSessionDuration, durationsLookup, h1, pw0]
    · by_cases h2 : t = "shortBreak"
      · refine ⟨(jsOr s.settings.shortBreakDuration 5) * 60, ps, ?_⟩
        simp [SMState.getSessionDuration, durationsLookup, h1, h2, ps0]
      · by_cases h3 : t = "longBreak"
        · refine ⟨(jsOr s.settings.longBreakDuration 15) * 60, pl, ?_⟩
          simp [SMState.getSessionDuration, durationsLookup, h1, h2, h3, pl0]
        · refine ⟨(jsOr s.settings.workDuration 25) * 60, pw, ?_⟩
          simp [SMState.getSessionDuration, durationsLookup, h1, h2, h3, hnp]

theorem C9_getSessionDuration_witness :
    (sampleState.getSessionDuration "banana" =
      sampleState.getSessionDuration "work") ∧
    (sampleState.getSessionDuration "toString" =
      JsValue.inherited "toString") ∧
    (∃ n : Int, 0 < n ∧
      sampleState.getSessionDuration "banana" = JsValue.num n) := by
  have h := C9_getSessionDuration_total sampleState "banana"
  have hp := C9_getSessionDuration_total sampleState "toString"
  refine ⟨h.1 (by decide) (by decide) (by decide) (by decide),
    hp.2.1 (by decide) (by decide) (by decide) (by decide), ?_⟩
  refine h.2.2.2.2.2 ?_ ?_ ?_ (by decide)
  · intro x hx
    simp [sampleState, SMState.mkNew, sampleSettings] at hx
    omega
  · intro x hx
    simp [sampleState, SMState.mkNew, sampleSettings] at hx
    omega
  · intro x hx
    simp [sampleState, SMState.mkNew, sampleSettings] at hx
    omega

/-- C10: setCurrentSession sets the session and returns true exactly on
the three recognized session-type strings; on every other value it
returns false and leaves the whole state (both counters and the session
type) unchanged. -/
theorem C10_setCurrentSession_validation (s : SMState) (t : String) :
    ((t = "work" ∨ t = "shortBreak" ∨ t = "longBreak") →
      s.setCurrentSession t = ({ s with currentSession := t }, true)) ∧
    (t ≠ "work" → t ≠ "shortBreak" → t ≠ "longBreak" →
      s.setCurrentSession t = (s, false)) := by
  constructor
  · intro h
    simp only [SMState.setCurrentSession]
    rw [if_pos h]
  · intro h1 h2 h3
    simp only [SMState.setCurrentSession]
    rw [if_neg (by tauto)]

theorem C10_setCurrentSession_witness :
    (sampleState.setCurrentSession "shortBreak" =
      ({ sampleState with currentSession := "shortBreak" }, true)) ∧
    (sampleState.setCurrentSession "banana" = (sampleState, false)) :=
  ⟨(C10_setCurrentSession_validation sampleState "shortBreak").1
      (Or.inr (Or.inl rfl)),
   (C10_setCurrentSession_validation sampleState "banana").2
      (by decide) (by decide) (by decide)⟩
